import Mathlib

/-!
Verification development for the IoT signal-transformation visualization
(`script.js`).  The JavaScript core is embedded shallowly:

* JS numbers are idealized as exact rationals `ℚ` (all quantities the claims
  mention — temperatures, voltages, ADC codes — stay far from any rounding
  boundary, e.g. `2.25/3.3*4095 = 2792.045…`, so double rounding never
  changes a `Math.floor` result here); `Math.floor` becomes `Int.floor`.
* JS strings are Lean `String`s; the binary bit string built by
  `toString(2).padStart(…)` is modelled as a `List Char`.
* `Math.random()` results are passed in explicitly as `ℚ` arguments in
  `[0, 1)`; the mutable `AppState` object is threaded as an explicit record.
* DOM access (`cacheElements`, `setElementText`, CSS animation) is pure
  presentation; the UI calls made by `switchMode` are recorded as an
  explicit effect list so that "no-op" is observable.
-/

namespace IotSim

/-- Configuration constants (`Config`, script.js lines 29–38).  The source
hard-codes these values in a literal object; the record generalizes the
literal so that construction with other values can be stated. -/
structure Config where
  UPDATE_INTERVAL : ℕ
  ANIMATION_INTERVAL : ℕ
  ADC_BITS : ℕ
  ADC_MAX : ℕ
  VOLTAGE_REF : ℚ
  TEMP_MIN : ℚ
  TEMP_MAX : ℚ
  PIR_DETECTION_CHANCE : ℚ

/-- The literal constant object of script.js lines 29–38
(3.3 = 33/10, 0.6 = 3/5). -/
def defaultConfig : Config :=
  { UPDATE_INTERVAL := 3000
    ANIMATION_INTERVAL := 1500
    ADC_BITS := 12
    ADC_MAX := 4095
    VOLTAGE_REF := 33 / 10
    TEMP_MIN := 20
    TEMP_MAX := 25
    PIR_DETECTION_CHANCE := 3 / 5 }

/-- The `AppState.data` sub-object (script.js lines 17–23). -/
structure SensorData where
  temperature : ℚ
  voltage : ℚ
  adcValue : ℤ
  pirDetected : Bool
  activeStage : ℕ

/-- The mutable `AppState` object (script.js lines 9–24); the interval
handles are timer wiring and carry no data. -/
structure AppState where
  currentMode : String
  data : SensorData

/-- Initial value of `AppState` (script.js lines 9–24):
temperature 22.5 = 45/2, voltage 2.45 = 49/20. -/
def initialAppState : AppState :=
  { currentMode := "analog"
    data :=
      { temperature := 45 / 2
        voltage := 49 / 20
        adcValue := 3041
        pirDetected := true
        activeStage := 0 } }

/-- `updateTemperatureData` (script.js lines 313–322): samples a fresh
temperature from the supplied random draw, derives the voltage by the linear
transfer function (0.1 = 1/10) and quantizes it through the ADC formula
`Math.floor((voltage / VOLTAGE_REF) * ADC_MAX)`. -/
def updateTemperatureData (cfg : Config) (rand : ℚ) (s : AppState) : AppState :=
  let temperature := cfg.TEMP_MIN + rand * (cfg.TEMP_MAX - cfg.TEMP_MIN)
  let voltage := 2 + (temperature - cfg.TEMP_MIN) * (1 / 10)
  { s with
    data :=
      { s.data with
        temperature := temperature
        voltage := voltage
        adcValue := ⌊voltage / cfg.VOLTAGE_REF * (cfg.ADC_MAX : ℚ)⌋ } }

/-- `updatePIRData` (script.js lines 327–330). -/
def updatePIRData (cfg : Config) (rand : ℚ) (s : AppState) : AppState :=
  { s with data := { s.data with pirDetected := decide (rand < cfg.PIR_DETECTION_CHANCE) } }

/-- Big-endian binary digits of `n`, with structural fuel (any
`fuel ≥ n` yields the digits of `n`); empty for `n = 0`.  Models the digit
loop behind JavaScript `Number.prototype.toString(2)` for naturals. -/
def binDigitsAux : ℕ → ℕ → List Char
  | 0, _ => []
  | fuel + 1, n =>
    if n = 0 then []
    else binDigitsAux fuel (n / 2) ++ [if n % 2 = 1 then '1' else '0']

/-- JavaScript `i.toString(2)` on an integer: `"0"` for zero, a `'-'` sign
followed by the magnitude's binary digits for negatives. -/
def jsToString2 (i : ℤ) : List Char :=
  if i = 0 then ['0']
  else if i < 0 then '-' :: binDigitsAux i.natAbs i.natAbs
  else binDigitsAux i.natAbs i.natAbs

/-- JavaScript `String.prototype.padStart(w, c)` with a single-character pad:
prepends copies of `c` up to width `w`, and leaves strings of length `≥ w`
unchanged (`w - length = 0` in truncated subtraction). -/
def padStart (s : List Char) (w : ℕ) (c : Char) : List Char :=
  List.replicate (w - s.length) c ++ s

/-- Data shown by the analog branch (`updateAnalogDisplay`, script.js lines
346–367).  The record keeps the numeric values and the computed bit string;
`toFixed` text rendering, the JSON preview's wall-clock timestamp and the
flash animation are DOM formatting outside the embedded core. -/
structure AnalogFrame where
  temp : ℚ
  voltage : ℚ
  adc : ℤ
  binary : List Char

/-- Data shown by the digital branch (`updateDigitalDisplay`, script.js
lines 372–400).  All four displayed values are string literals in the
source, including the French status labels. -/
structure DigitalFrame where
  state : String
  voltage : String
  binary : String
  status : String

/-- One complete rendered snapshot: exactly one of the two branches. -/
inductive DisplayFrame where
  | analog (f : AnalogFrame)
  | digital (f : DigitalFrame)

/-- `updateAnalogDisplay` (script.js lines 346–367):
`binary = adc.toString(2).padStart(Config.ADC_BITS, '0')` (line 350). -/
def updateAnalogDisplay (cfg : Config) (s : AppState) : AnalogFrame :=
  { temp := s.data.temperature
    voltage := s.data.voltage
    adc := s.data.adcValue
    binary := padStart (jsToString2 s.data.adcValue) cfg.ADC_BITS '0' }

/-- `updateDigitalDisplay` (script.js lines 372–400). -/
def updateDigitalDisplay (s : AppState) : DigitalFrame :=
  let detected := s.data.pirDetected
  { state := if detected then "HIGH" else "LOW"
    voltage := if detected then "3.3V" else "0V"
    binary := if detected then "1" else "0"
    status := if detected then "Mouvement" else "Aucun" }

/-- `updateDisplay` (script.js lines 335–341): the analog branch runs only
when `currentMode === 'analog'`; every other stored mode string falls to the
digital branch. -/
def updateDisplay (cfg : Config) (s : AppState) : DisplayFrame :=
  if s.currentMode = "analog" then .analog (updateAnalogDisplay cfg s)
  else .digital (updateDigitalDisplay s)

/-- The UI calls `switchMode` makes on an actual mode change (script.js
lines 176–184), recorded as data so that "did nothing" is observable.
`switchMode` resets no timers and emits no data frame in either branch. -/
inductive UIEffect where
  | modeButtons (mode : String)
  | modeText (mode : String)
  | sensorDisplay (mode : String)
  | processingDisplay (mode : String)
  | applicationDisplay (mode : String)
  | modeTransitionAnim

/-- `switchMode` (script.js lines 170–185): early-returns when the requested
mode is already active; otherwise stores the argument unchecked and performs
the six UI updates. -/
def switchMode (mode : String) (s : AppState) : AppState × List UIEffect :=
  if s.currentMode = mode then (s, [])
  else
    ({ s with currentMode := mode },
      [UIEffect.modeButtons mode, UIEffect.modeText mode, UIEffect.sensorDisplay mode,
        UIEffect.processingDisplay mode, UIEffect.applicationDisplay mode,
        UIEffect.modeTransitionAnim])

/-- The initial sampling of `startRealTimeUpdates` (script.js lines 289–308):
one immediate temperature update and one immediate PIR update; the interval
registrations are timer wiring. -/
def startRealTimeUpdates (cfg : Config) (randTemp randPir : ℚ) (s : AppState) : AppState :=
  updatePIRData cfg randPir (updateTemperatureData cfg randTemp s)

/-- `startStageAnimations` (script.js lines 409–415): resets the stage
pointer to 0 and registers the animation interval (timer wiring). -/
def startStageAnimations (s : AppState) : AppState :=
  { s with data := { s.data with activeStage := 0 } }

/-- `cycleActiveStage` (script.js lines 420–429):
`activeStage = (activeStage + 1) % totalStages` where `totalStages` is the
number of stage cards in the DOM, passed here as a parameter.  (With zero
stage cards the JS `%` yields NaN; the theorems assume `0 < totalStages`.) -/
def cycleActiveStage (totalStages : ℕ) (s : AppState) : AppState :=
  { s with data := { s.data with activeStage := (s.data.activeStage + 1) % totalStages } }

/-- `init` (script.js lines 85–104): caches DOM elements, wires listeners
(pure presentation), performs the initial samples, resets the stage pointer
and renders once.  The JS function body contains no configuration check and
no `throw`, so construction always succeeds; the unconditional `Except.ok`
records that no failure path exists. -/
def init (cfg : Config) (randTemp randPir : ℚ) : Except String (AppState × DisplayFrame) :=
  let s := startStageAnimations (startRealTimeUpdates cfg randTemp randPir initialAppState)
  .ok (s, updateDisplay cfg s)

/-- A configuration violating the spec's invariant `adcBits > 0`; all other
fields keep the source's literal values. -/
def invalidConfig : Config :=
  { defaultConfig with ADC_BITS := 0 }

/-! ### Helper lemmas -/

lemma binDigitsAux_length_le :
    ∀ fuel n k, n ≤ fuel → n < 2 ^ k → (binDigitsAux fuel n).length ≤ k := by
  intro fuel
  induction fuel with
  | zero => intro n k _ _; simp [binDigitsAux]
  | succ fuel ih =>
    intro n k hn hk
    by_cases h0 : n = 0
    · simp [binDigitsAux, h0]
    · have hk1 : 1 ≤ k := by
        rcases Nat.eq_zero_or_pos k with hk0 | hk0
        · subst hk0; simp at hk; omega
        · exact hk0
      obtain ⟨j, rfl⟩ : ∃ j, k = j + 1 := ⟨k - 1, by omega⟩
      have hdiv : n / 2 ≤ fuel := by omega
      have hlt : n / 2 < 2 ^ j := by
        rw [Nat.div_lt_iff_lt_mul (by norm_num)]
        calc n < 2 ^ (j + 1) := hk
          _ = 2 ^ j * 2 := by ring
      have := ih (n / 2) j hdiv hlt
      simp [binDigitsAux, h0]
      omega

lemma binDigitsAux_length_ge :
    ∀ fuel n k, n ≤ fuel → 2 ^ k ≤ n → k + 1 ≤ (binDigitsAux fuel n).length := by
  intro fuel
  induction fuel with
  | zero =>
    intro n k hn hk
    have : 1 ≤ 2 ^ k := Nat.one_le_two_pow
    omega
  | succ fuel ih =>
    intro n k hn hk
    have h1 : 1 ≤ 2 ^ k := Nat.one_le_two_pow
    have h0 : ¬ n = 0 := by omega
    cases k with
    | zero => simp [binDigitsAux, h0]
    | succ j =>
      have h2 : 2 ≤ n := by
        have hpow : (2 : ℕ) ^ 1 ≤ 2 ^ (j + 1) := Nat.pow_le_pow_right (by norm_num) (by omega)
        simp only [pow_one] at hpow
        omega
      have hdiv : n / 2 ≤ fuel := by omega
      have hge : 2 ^ j ≤ n / 2 := by
        rw [Nat.le_div_iff_mul_le (by norm_num)]
        calc 2 ^ j * 2 = 2 ^ (j + 1) := by ring
          _ ≤ n := hk
      have := ih (n / 2) j hdiv hge
      simp [binDigitsAux, h0]
      omega

lemma binDigitsAux_mem :
    ∀ fuel n c, c ∈ binDigitsAux fuel n → c = '0' ∨ c = '1' := by
  intro fuel
  induction fuel with
  | zero => intro n c hc; simp [binDigitsAux] at hc
  | succ fuel ih =>
    intro n c hc
    by_cases h0 : n = 0
    · simp [binDigitsAux, h0] at hc
    · simp only [binDigitsAux, h0, if_false, List.mem_append, List.mem_singleton] at hc
      rcases hc with hc | hc
      · exact ih _ _ hc
      · by_cases h2 : n % 2 = 1 <;> simp [h2] at hc <;> simp [hc]

lemma jsToString2_length_eq (i : ℤ) (h1 : 2048 ≤ i) (h2 : i ≤ 4095) :
    (jsToString2 i).length = 12 := by
  have h0 : ¬ i = 0 := by omega
  have hneg : ¬ i < 0 := by omega
  have hub : i.natAbs < 2 ^ 12 := by
    have : (2 : ℕ) ^ 12 = 4096 := by norm_num
    omega
  have hlb : 2 ^ 11 ≤ i.natAbs := by
    have : (2 : ℕ) ^ 11 = 2048 := by norm_num
    omega
  have hle := binDigitsAux_length_le i.natAbs i.natAbs 12 le_rfl hub
  have hge := binDigitsAux_length_ge i.natAbs i.natAbs 11 le_rfl hlb
  simp only [jsToString2, h0, hneg, if_false]
  omega

lemma jsToString2_mem_pos (i : ℤ) (hi : 0 < i) (c : Char) (hc : c ∈ jsToString2 i) :
    c = '0' ∨ c = '1' := by
  have h0 : ¬ i = 0 := by omega
  have hneg : ¬ i < 0 := by omega
  simp only [jsToString2, h0, hneg, if_false] at hc
  exact binDigitsAux_mem _ _ _ hc

lemma padStart_length (s : List Char) (w : ℕ) (c : Char) :
    (padStart s w c).length = max w s.length := by
  simp [padStart]
  omega

lemma padStart_mem (s : List Char) (w : ℕ) (c x : Char) (hx : x ∈ padStart s w c) :
    x = c ∨ x ∈ s := by
  simp only [padStart, List.mem_append] at hx
  rcases hx with hx | hx
  · exact Or.inl (List.eq_of_mem_replicate hx)
  · exact Or.inr hx

lemma adcValue_lb (r : ℚ) (s : AppState) (h0 : 0 ≤ r) :
    2481 ≤ (updateTemperatureData defaultConfig r s).data.adcValue := by
  simp only [updateTemperatureData, defaultConfig]
  rw [Int.le_floor]
  push_cast
  nlinarith

lemma adcValue_ub (r : ℚ) (s : AppState) (h1 : r < 1) :
    (updateTemperatureData defaultConfig r s).data.adcValue ≤ 3102 := by
  have : (updateTemperatureData defaultConfig r s).data.adcValue < 3103 := by
    simp only [updateTemperatureData, defaultConfig]
    rw [Int.floor_lt]
    push_cast
    nlinarith
  omega

lemma cycleActiveStage_iterate (n : ℕ) (s : AppState) (k : ℕ) :
    ((cycleActiveStage n)^[k + 1] s).data.activeStage
      = (s.data.activeStage + (k + 1)) % n := by
  induction k with
  | zero => simp [cycleActiveStage]
  | succ k ih =>
    rw [Function.iterate_succ_apply']
    simp only [cycleActiveStage]
    rw [ih, Nat.mod_add_mod, Nat.add_assoc]

lemma cycleActiveStage_iterate_lt (n : ℕ) (s : AppState)
    (hp : s.data.activeStage < n) (k : ℕ) :
    ((cycleActiveStage n)^[k] s).data.activeStage = (s.data.activeStage + k) % n := by
  cases k with
  | zero => simp [Nat.mod_eq_of_lt hp]
  | succ k => exact cycleActiveStage_iterate n s k

lemma adcValue_at_half :
    (updateTemperatureData defaultConfig (1 / 2) initialAppState).data.adcValue = 2792 := by
  simp only [updateTemperatureData, defaultConfig]
  rw [Int.floor_eq_iff]
  refine ⟨by push_cast; norm_num, by push_cast; norm_num⟩

lemma voltage_at_half :
    (updateTemperatureData defaultConfig (1 / 2) initialAppState).data.voltage = 9 / 4 := by
  simp only [updateTemperatureData, defaultConfig]
  norm_num

lemma temperature_at_half :
    (updateTemperatureData defaultConfig (1 / 2) initialAppState).data.temperature = 45 / 2 := by
  simp only [updateTemperatureData, defaultConfig]
  norm_num

/-! ### Claim theorems -/

/-- Claim C1, counterexample.  With the source constants, the reading
temperature = 22.5 (random draw 1/2) yields voltage 2.25 = 9/4, but the ADC
code the code computes is `⌊2.25 / 3.3 * 4095⌋ = ⌊61425/22⌋ = 2792`, not the
2790 stated in the claim (and hence the bit string is not "101011100110",
which is 2790 in binary). -/
theorem C1_counterexample :
    (updateTemperatureData defaultConfig (1 / 2) initialAppState).data.temperature = 45 / 2 ∧
    (updateTemperatureData defaultConfig (1 / 2) initialAppState).data.voltage = 9 / 4 ∧
    (updateTemperatureData defaultConfig (1 / 2) initialAppState).data.adcValue ≠ 2790 := by
  refine ⟨temperature_at_half, voltage_at_half, ?_⟩
  rw [adcValue_at_half]
  decide

/-- Claim C1, amended.  With Config tempMin=20, tempMax=25, voltageRef=3.3,
adcBits=12, encoding the analog reading temperature=22.5 produces
voltage=2.25, ADC code `⌊2.25/3.3*4095⌋ = 2792`, and bit string
"101011101000". -/
theorem C1_encoding_scenario :
    (updateTemperatureData defaultConfig (1 / 2) initialAppState).data.temperature = 45 / 2 ∧
    (updateTemperatureData defaultConfig (1 / 2) initialAppState).data.voltage = 9 / 4 ∧
    (updateTemperatureData defaultConfig (1 / 2) initialAppState).data.adcValue = 2792 ∧
    (updateAnalogDisplay defaultConfig
        (updateTemperatureData defaultConfig (1 / 2) initialAppState)).binary
      = ['1', '0', '1', '0', '1', '1', '1', '0', '1', '0', '0', '0'] := by
  refine ⟨temperature_at_half, voltage_at_half, adcValue_at_half, ?_⟩
  show padStart (jsToString2
      (updateTemperatureData defaultConfig (1 / 2) initialAppState).data.adcValue)
      defaultConfig.ADC_BITS '0' = _
  rw [adcValue_at_half]
  decide

/-- Claim C2: for every analog reading the ADC code equals
`⌊(voltage / VREF) * ADC_MAX⌋`, where `ADC_MAX = 2^ADC_BITS - 1 = 4095`
for the source constants; the conversion is not clamped, witnessed by a
random draw giving voltage/VREF > 1 and a code above ADC_MAX. -/
theorem C2_adc_floor_unclamped (cfg : Config) (r : ℚ) (s : AppState) :
    (updateTemperatureData cfg r s).data.adcValue
      = ⌊(updateTemperatureData cfg r s).data.voltage / cfg.VOLTAGE_REF * (cfg.ADC_MAX : ℚ)⌋ ∧
    defaultConfig.ADC_MAX = 2 ^ defaultConfig.ADC_BITS - 1 ∧
    defaultConfig.ADC_MAX = 4095 ∧
    ∃ r2 : ℚ,
      1 < (updateTemperatureData defaultConfig r2 s).data.voltage / defaultConfig.VOLTAGE_REF ∧
      ((defaultConfig.ADC_MAX : ℤ) < (updateTemperatureData defaultConfig r2 s).data.adcValue) := by
  refine ⟨rfl, by norm_num [defaultConfig], rfl, 100, ?_, ?_⟩
  · simp only [updateTemperatureData, defaultConfig]
    norm_num
  · show (((4095 : ℕ) : ℤ)) < (updateTemperatureData defaultConfig 100 s).data.adcValue
    have h : (4096 : ℤ) ≤ (updateTemperatureData defaultConfig 100 s).data.adcValue := by
      simp only [updateTemperatureData, defaultConfig]
      rw [Int.le_floor]
      push_cast
      norm_num
    omega

/-- Claim C3, counterexample.  `init` contains no configuration check and no
throw: constructing with `ADC_BITS = 0` succeeds and produces an engine
state, contradicting the claim that construction fails with a configuration
error and produces no instance. -/
theorem C3_counterexample :
    invalidConfig.ADC_BITS = 0 ∧ (init invalidConfig 0 0).isOk = true :=
  ⟨rfl, rfl⟩

/-- Claim C3, amended: construction performs no configuration validation at
all — `init` succeeds for every configuration (including `adcBits = 0`,
`tempMax ≤ tempMin`, or `detectionChance` outside [0,1]) and always
produces an engine instance, so invariant violations are not rejected and
flow silently into later computations. -/
theorem C3_init_never_fails (cfg : Config) (r1 r2 : ℚ) :
    (init cfg r1 r2).isOk = true :=
  rfl

/-- Claim C4, counterexample.  The digital branch renders the detected
status label as the French string "Mouvement" (and "Aucun" when not
detected), not "Motion"/"None" as the claim states. -/
theorem C4_counterexample :
    (updateDigitalDisplay initialAppState).status = "Mouvement" ∧
    ("Mouvement" : String) ≠ "Motion" := by
  exact ⟨rfl, by decide⟩

/-- Claim C4, amended: digital encoding is a deterministic pure function of
the reading — detected readings yield logic level "HIGH", voltage rendered
"3.3V" (VREF = 3.3), bit "1" and status label "Mouvement"; undetected
readings yield "LOW", "0V", "0" and "Aucun". -/
theorem C4_digital_encoding (s : AppState) :
    (s.data.pirDetected = true →
      updateDigitalDisplay s =
        { state := "HIGH", voltage := "3.3V", binary := "1", status := "Mouvement" }) ∧
    (s.data.pirDetected = false →
      updateDigitalDisplay s =
        { state := "LOW", voltage := "0V", binary := "0", status := "Aucun" }) ∧
    defaultConfig.VOLTAGE_REF = 33 / 10 ∧
    ∀ s2 : AppState, s2.data.pirDetected = s.data.pirDetected →
      updateDigitalDisplay s2 = updateDigitalDisplay s := by
  refine ⟨?_, ?_, rfl, ?_⟩
  · intro h; simp [updateDigitalDisplay, h]
  · intro h; simp [updateDigitalDisplay, h]
  · intro s2 h; simp [updateDigitalDisplay, h]

/-- Claim C4 witness: the amended theorem applied to the initial state,
whose PIR reading is detected. -/
theorem C4_digital_encoding_witness :
    updateDigitalDisplay initialAppState =
      { state := "HIGH", voltage := "3.3V", binary := "1", status := "Mouvement" } :=
  (C4_digital_encoding initialAppState).1 rfl

/-- Claim C5: for every temperature sample in [TEMP_MIN, TEMP_MAX] (random
draw in [0, 1], range nonempty), the encoded voltage equals
`2.0 + (t - TEMP_MIN) * 0.1`, and voltage is monotonically non-decreasing in
the sampled temperature. -/
theorem C5_voltage_transfer (cfg : Config) (r r2 : ℚ) (s s2 : AppState)
    (h0 : 0 ≤ r) (h1 : r ≤ 1) (hT : cfg.TEMP_MIN ≤ cfg.TEMP_MAX) :
    cfg.TEMP_MIN ≤ (updateTemperatureData cfg r s).data.temperature ∧
    (updateTemperatureData cfg r s).data.temperature ≤ cfg.TEMP_MAX ∧
    (updateTemperatureData cfg r s).data.voltage
      = 2 + ((updateTemperatureData cfg r s).data.temperature - cfg.TEMP_MIN) * (1 / 10) ∧
    ((updateTemperatureData cfg r s).data.temperature
        ≤ (updateTemperatureData cfg r2 s2).data.temperature →
      (updateTemperatureData cfg r s).data.voltage
        ≤ (updateTemperatureData cfg r2 s2).data.voltage) := by
  simp only [updateTemperatureData]
  refine ⟨?_, ?_, by trivial, ?_⟩
  · nlinarith [mul_nonneg h0 (sub_nonneg.mpr hT)]
  · nlinarith [mul_nonneg (sub_nonneg.mpr h1) (sub_nonneg.mpr hT)]
  · intro h; linarith

/-- Claim C5 witness: the transfer-function theorem applied at the source
constants with random draws 1/2 and 3/4. -/
theorem C5_voltage_transfer_witness :
    defaultConfig.TEMP_MIN
      ≤ (updateTemperatureData defaultConfig (1 / 2) initialAppState).data.temperature ∧
    (updateTemperatureData defaultConfig (1 / 2) initialAppState).data.temperature
      ≤ defaultConfig.TEMP_MAX ∧
    (updateTemperatureData defaultConfig (1 / 2) initialAppState).data.voltage
      = 2 + ((updateTemperatureData defaultConfig (1 / 2) initialAppState).data.temperature
          - defaultConfig.TEMP_MIN) * (1 / 10) ∧
    ((updateTemperatureData defaultConfig (1 / 2) initialAppState).data.temperature
        ≤ (updateTemperatureData defaultConfig (3 / 4) initialAppState).data.temperature →
      (updateTemperatureData defaultConfig (1 / 2) initialAppState).data.voltage
        ≤ (updateTemperatureData defaultConfig (3 / 4) initialAppState).data.voltage) :=
  C5_voltage_transfer defaultConfig (1 / 2) (3 / 4) initialAppState initialAppState
    (by norm_num) (by norm_num) (by norm_num [defaultConfig])

/-- Claim C6: for every generated ADC code (random draw in [0, 1)), the bits
string has length exactly `ADC_BITS = 12`, consists only of the characters
'0' and '1', and is the code rendered in base 2 left-padded with '0'. -/
theorem C6_bits_wellformed (r : ℚ) (s : AppState) (h0 : 0 ≤ r) (h1 : r < 1) :
    ((updateAnalogDisplay defaultConfig
        (updateTemperatureData defaultConfig r s)).binary).length
      = defaultConfig.ADC_BITS ∧
    (∀ c, c ∈ (updateAnalogDisplay defaultConfig
        (updateTemperatureData defaultConfig r s)).binary → c = '0' ∨ c = '1') ∧
    (updateAnalogDisplay defaultConfig (updateTemperatureData defaultConfig r s)).binary
      = padStart
          (jsToString2 (updateTemperatureData defaultConfig r s).data.adcValue)
          defaultConfig.ADC_BITS '0' := by
  have hlb := adcValue_lb r s h0
  have hub := adcValue_ub r s h1
  have hlen : (jsToString2 (updateTemperatureData defaultConfig r s).data.adcValue).length
      = 12 := jsToString2_length_eq _ (by omega) (by omega)
  refine ⟨?_, ?_, rfl⟩
  · show (padStart (jsToString2 (updateTemperatureData defaultConfig r s).data.adcValue)
        defaultConfig.ADC_BITS '0').length = defaultConfig.ADC_BITS
    rw [padStart_length, hlen]
    rfl
  · intro c hc
    have hc2 := padStart_mem _ _ _ _ hc
    rcases hc2 with hc2 | hc2
    · exact Or.inl hc2
    · exact jsToString2_mem_pos _ (by omega) _ hc2

/-- Claim C6 witness: the bits theorem applied at random draw 1/2. -/
theorem C6_bits_wellformed_witness :
    ((updateAnalogDisplay defaultConfig
        (updateTemperatureData defaultConfig (1 / 2) initialAppState)).binary).length
      = defaultConfig.ADC_BITS ∧
    (∀ c, c ∈ (updateAnalogDisplay defaultConfig
        (updateTemperatureData defaultConfig (1 / 2) initialAppState)).binary →
      c = '0' ∨ c = '1') ∧
    (updateAnalogDisplay defaultConfig
        (updateTemperatureData defaultConfig (1 / 2) initialAppState)).binary
      = padStart
          (jsToString2
            (updateTemperatureData defaultConfig (1 / 2) initialAppState).data.adcValue)
          defaultConfig.ADC_BITS '0' :=
  C6_bits_wellformed (1 / 2) initialAppState (by norm_num) (by norm_num)

/-- Claim C7: calling `switchMode` with the currently active mode is a
complete no-op — the state is returned unchanged and the effect list is
empty (no re-render, no timer reset, no frame). -/
theorem C7_switchMode_noop (mode : String) (s : AppState)
    (h : s.currentMode = mode) :
    switchMode mode s = (s, []) := by
  simp [switchMode, h]

/-- Claim C7 witness: switching to "analog" while already in analog mode
leaves the initial state untouched and performs no effect. -/
theorem C7_switchMode_noop_witness :
    switchMode "analog" initialAppState = (initialAppState, []) :=
  C7_switchMode_noop "analog" initialAppState rfl

/-- Claim C8: with `0 < n` stage cards and a valid pointer, the stage
pointer stays in `[0, n)`, advances by exactly 1 mod n per tick, wraps
`n-1 → 0`, takes the value `k % n` after `k` ticks from a fresh
`startStageAnimations` (hence visits n distinct values before repeating,
with period n), and its advance ignores the active mode. -/
theorem C8_stage_pointer (n : ℕ) (s : AppState)
    (hn : 0 < n) (hp : s.data.activeStage < n) :
    (cycleActiveStage n s).data.activeStage < n ∧
    (cycleActiveStage n s).data.activeStage = (s.data.activeStage + 1) % n ∧
    (s.data.activeStage = n - 1 → (cycleActiveStage n s).data.activeStage = 0) ∧
    (∀ k, ((cycleActiveStage n)^[k] s).data.activeStage = (s.data.activeStage + k) % n) ∧
    ((cycleActiveStage n)^[n] s).data.activeStage = s.data.activeStage ∧
    (∀ i j, i < n → j < n →
      ((cycleActiveStage n)^[i] (startStageAnimations s)).data.activeStage
        = ((cycleActiveStage n)^[j] (startStageAnimations s)).data.activeStage → i = j) ∧
    (∀ m, (cycleActiveStage n { s with currentMode := m }).data.activeStage
        = (cycleActiveStage n s).data.activeStage) := by
  have hstart : (startStageAnimations s).data.activeStage < n := hn
  refine ⟨Nat.mod_lt _ hn, rfl, ?_, cycleActiveStage_iterate_lt n s hp, ?_, ?_, ?_⟩
  · intro h
    show (s.data.activeStage + 1) % n = 0
    rw [h, Nat.sub_add_cancel hn, Nat.mod_self]
  · rw [cycleActiveStage_iterate_lt n s hp n, Nat.add_mod_right, Nat.mod_eq_of_lt hp]
  · intro i j hi hj hij
    rw [cycleActiveStage_iterate_lt n _ hstart i,
      cycleActiveStage_iterate_lt n _ hstart j] at hij
    have h0 : (startStageAnimations s).data.activeStage = 0 := rfl
    rw [h0, Nat.zero_add, Nat.zero_add, Nat.mod_eq_of_lt hi, Nat.mod_eq_of_lt hj] at hij
    exact hij
  · intro m
    rfl

/-- Claim C8 witness: the stage-pointer theorem applied with 4 stage cards
to the initial state, whose pointer is 0. -/
theorem C8_stage_pointer_witness :
    (cycleActiveStage 4 initialAppState).data.activeStage < 4 ∧
    (cycleActiveStage 4 initialAppState).data.activeStage
      = (initialAppState.data.activeStage + 1) % 4 ∧
    (initialAppState.data.activeStage = 4 - 1 →
      (cycleActiveStage 4 initialAppState).data.activeStage = 0) ∧
    (∀ k, ((cycleActiveStage 4)^[k] initialAppState).data.activeStage
        = (initialAppState.data.activeStage + k) % 4) ∧
    ((cycleActiveStage 4)^[4] initialAppState).data.activeStage
      = initialAppState.data.activeStage ∧
    (∀ i j, i < 4 → j < 4 →
      ((cycleActiveStage 4)^[i] (startStageAnimations initialAppState)).data.activeStage
        = ((cycleActiveStage 4)^[j] (startStageAnimations initialAppState)).data.activeStage →
      i = j) ∧
    (∀ m, (cycleActiveStage 4 { initialAppState with currentMode := m }).data.activeStage
        = (cycleActiveStage 4 initialAppState).data.activeStage) :=
  C8_stage_pointer 4 initialAppState (by norm_num) (by norm_num [initialAppState])

/-- Claim C9: with the source constants, every ADC code produced from a
sampled temperature (random draw in [0, 1)) lies in [2481, 3102], hence in
[0, ADC_MAX], and the rendered binary string never exceeds 12 characters. -/
theorem C9_code_always_in_range (r : ℚ) (s : AppState) (h0 : 0 ≤ r) (h1 : r < 1) :
    2481 ≤ (updateTemperatureData defaultConfig r s).data.adcValue ∧
    (updateTemperatureData defaultConfig r s).data.adcValue ≤ 3102 ∧
    0 ≤ (updateTemperatureData defaultConfig r s).data.adcValue ∧
    (updateTemperatureData defaultConfig r s).data.adcValue ≤ (defaultConfig.ADC_MAX : ℤ) ∧
    ((updateAnalogDisplay defaultConfig
        (updateTemperatureData defaultConfig r s)).binary).length ≤ 12 := by
  have hlb := adcValue_lb r s h0
  have hub := adcValue_ub r s h1
  refine ⟨hlb, hub, by omega, ?_, ?_⟩
  · show _ ≤ ((4095 : ℕ) : ℤ)
    omega
  · show (padStart (jsToString2 (updateTemperatureData defaultConfig r s).data.adcValue)
        defaultConfig.ADC_BITS '0').length ≤ 12
    rw [padStart_length, jsToString2_length_eq _ (by omega) (by omega)]
    rfl

/-- Claim C9 witness: the range theorem applied at random draw 1/2. -/
theorem C9_code_always_in_range_witness :
    2481 ≤ (updateTemperatureData defaultConfig (1 / 2) initialAppState).data.adcValue ∧
    (updateTemperatureData defaultConfig (1 / 2) initialAppState).data.adcValue ≤ 3102 ∧
    0 ≤ (updateTemperatureData defaultConfig (1 / 2) initialAppState).data.adcValue ∧
    (updateTemperatureData defaultConfig (1 / 2) initialAppState).data.adcValue
      ≤ (defaultConfig.ADC_MAX : ℤ) ∧
    ((updateAnalogDisplay defaultConfig
        (updateTemperatureData defaultConfig (1 / 2) initialAppState)).binary).length ≤ 12 :=
  C9_code_always_in_range (1 / 2) initialAppState (by norm_num) (by norm_num)

/-- Claim C10: `switchMode` validates nothing — any string different from
the stored mode is accepted and stored as the active mode, and every stored
mode other than "analog" (including strings that are neither "analog" nor
"digital") is processed by the digital display branch. -/
theorem C10_no_mode_validation (s : AppState) (m : String) (h : m ≠ s.currentMode) :
    (switchMode m s).1.currentMode = m ∧
    (m ≠ "analog" →
      updateDisplay defaultConfig (switchMode m s).1
        = DisplayFrame.digital (updateDigitalDisplay (switchMode m s).1)) := by
  have hne : ¬ s.currentMode = m := fun hh => h hh.symm
  constructor
  · simp [switchMode, hne]
  · intro hm
    simp [switchMode, hne, updateDisplay, hm]

/-- Claim C10 witness: storing the junk mode "bogus" succeeds and the next
display update takes the digital branch. -/
theorem C10_no_mode_validation_witness :
    (switchMode "bogus" initialAppState).1.currentMode = "bogus" ∧
    ("bogus" ≠ "analog" →
      updateDisplay defaultConfig (switchMode "bogus" initialAppState).1
        = DisplayFrame.digital (updateDigitalDisplay (switchMode "bogus" initialAppState).1)) :=
  C10_no_mode_validation initialAppState "bogus" (by decide)

end IotSim
